import Mathlib

/-!
Verification of the dataset_builder.py local synchronization server.

The embedding mirrors `src/dataset_builder.py`:
* raw JSON values (Python's parsed `json` objects) as a mutual inductive
  `Json` / `JsonList` / `JsonKVs`;
* the dataset store operations `_load_existing_data`, `remove_item`;
* the POST handlers for `/save`, `/remove`, `/restart`, `/refresh`
  (`DatasetHTTPHandler.do_POST`) as functions producing a response and an
  ordered list of side-effect events;
* the main run loop `run_server` and the restart-monitor thread as
  event-trace generators driven by an outcome oracle;
* the client-side filter/search engine `applyFiltersAndSearch` from the
  generated viewer page.
-/

namespace DSB

mutual
/-- Parsed JSON values as produced by Python's `json.load`/`json.loads`.
Numbers are modelled as integers (no claim depends on float values);
objects are insertion-ordered key/value sequences with unique keys, which
is what `json.load` produces for a JSON document. -/
inductive Json where
  | null : Json
  | bool (b : Bool) : Json
  | num (n : Int) : Json
  | str (s : String) : Json
  | arr (l : JsonList) : Json
  | obj (m : JsonKVs) : Json

/-- A JSON array's elements. -/
inductive JsonList where
  | nil : JsonList
  | cons (hd : Json) (tl : JsonList) : JsonList

/-- A JSON object's key/value entries, in insertion order. -/
inductive JsonKVs where
  | nil : JsonKVs
  | cons (key : String) (val : Json) (tl : JsonKVs) : JsonKVs
end

deriving instance DecidableEq for Json, JsonList, JsonKVs

/-- Python `d[k]` / `d.get(k)` on a dict: the (unique) matching key's value. -/
def JsonKVs.lookup (k : String) : JsonKVs → Option Json
  | .nil => none
  | .cons k' v rest => if k' == k then some v else rest.lookup k

/-- Python `d[k] = v` on a dict: replace in place, keeping the key's
position, or append if the key is new. -/
def JsonKVs.set (k : String) (v : Json) : JsonKVs → JsonKVs
  | .nil => .cons k v .nil
  | .cons k' v' rest => if k' == k then .cons k' v rest else .cons k' v' (rest.set k v)

def JsonKVs.isEmpty : JsonKVs → Bool
  | .nil => true
  | .cons _ _ _ => false

def JsonList.isEmpty : JsonList → Bool
  | .nil => true
  | .cons _ _ => false

def JsonList.all (p : Json → Bool) : JsonList → Bool
  | .nil => true
  | .cons a rest => p a && rest.all p

def JsonList.mem (a : Json) : JsonList → Bool
  | .nil => false
  | .cons b rest => a == b || rest.mem a

/-- Python truthiness of a parsed JSON value (`if not item_id: ...`). -/
def jsonFalsy : Json → Bool
  | .null => true
  | .bool b => !b
  | .num n => n == 0
  | .str s => s == ""
  | .arr l => l.isEmpty
  | .obj m => m.isEmpty

/-! ## The dataset store: `_load_existing_data` -/

/-- The canonical `ID` attribute inserted at position 0 by
`_load_existing_data` (dataset_builder.py lines 330-334 and 347-351). -/
def canonicalID : Json :=
  .obj (.cons "name" (.str "ID") (.cons "description" (.str "")
    (.cons "readonly" (.bool true) .nil)))

/-- The empty, normalized dataset returned when the data file is absent or
unparseable (dataset_builder.py lines 345-353). -/
def emptyDataset : Json :=
  .obj (.cons "items" (.arr .nil) (.cons "attributes" (.arr (.cons canonicalID .nil))
    (.cons "last_updated" (.str "") .nil)))

/-- One step of the list comprehension
`[attr for attr in dataset['attributes'] if attr['name'] != 'ID']`
(line 329).  A non-dict element, or a dict without a `name` key, makes the
Python expression `attr['name']` raise (TypeError / KeyError), which no
handler catches; this is modelled as `.error`.  An attribute whose name is
the string `"ID"` is dropped (`.ok none`); anything else is kept. -/
def normalizeAttr (a : Json) : Except String (Option Json) :=
  match a with
  | .obj m =>
      match m.lookup "name" with
      | some n => if n == .str "ID" then .ok none else .ok (some a)
      | none => .error "KeyError: name"
  | _ => .error "TypeError: attr is not a dict"

/-- The whole attribute-filtering comprehension of line 329. -/
def filterAttrs : JsonList → Except String JsonList
  | .nil => .ok .nil
  | .cons a rest => do
      let r ← normalizeAttr a
      let rs ← filterAttrs rest
      match r with
      | some x => .ok (.cons x rs)
      | none => .ok rs

/-- One iteration of the item loop (lines 337-340): repair a missing
`attribute_values` dict, then force `attribute_values['ID'] = item['id']`.
A non-dict item, a missing `id` key, or a non-dict `attribute_values`
value makes the Python subscripting raise; modelled as `.error`. -/
def normalizeItem (it : Json) : Except String Json :=
  match it with
  | .obj m =>
      let m1 := if (m.lookup "attribute_values").isSome then m
                else m.set "attribute_values" (.obj .nil)
      match m1.lookup "id" with
      | none => .error "KeyError: id"
      | some idv =>
          match m1.lookup "attribute_values" with
          | some (.obj av) => .ok (.obj (m1.set "attribute_values" (.obj (av.set "ID" idv))))
          | _ => .error "TypeError: attribute_values is not a dict"
  | _ => .error "TypeError: item is not a dict"

/-- The item loop of lines 337-340 over the whole `items` list. -/
def normalizeItems : JsonList → Except String JsonList
  | .nil => .ok .nil
  | .cons it rest => do
      let x ← normalizeItem it
      let xs ← normalizeItems rest
      .ok (.cons x xs)

/-- Python's `if k not in dataset: dataset[k] = default` (lines 321-326). -/
def ensureKey (k : String) (d : Json) (m : JsonKVs) : JsonKVs :=
  if (m.lookup k).isSome then m else m.set k d

/-- The input of `_load_existing_data`: the data file is absent, present
but not parseable as JSON (`json.JSONDecodeError`), or parses to `j`. -/
inductive LoadInput where
  | absent : LoadInput
  | unparseable : LoadInput
  | parsed (j : Json) : LoadInput
deriving DecidableEq

/-- The method `DatasetBuilder._load_existing_data` (dataset_builder.py lines 313-353).

* absent file, or `json.JSONDecodeError`: the empty normalized dataset;
* a parsed top-level value that is not a dict: every such value makes an
  uncaught exception (`'items' not in 5` is a TypeError; for a str/list the
  later subscript-assignments raise) — only `json.JSONDecodeError` is
  caught, so the call fails, modelled as `.error`;
* a dict: default the `items` / `attributes` / `last_updated` keys, filter
  out any `ID` attribute, insert the canonical `ID` attribute at position
  0, and force every item's `attribute_values['ID'] = item['id']`.
  Iterating a non-list `attributes` or `items` value raises in Python
  except for the vacuous empty-string / empty-dict iterations, which are
  reproduced exactly. -/
def loadExistingData : LoadInput → Except String Json
  | .absent => .ok emptyDataset
  | .unparseable => .ok emptyDataset
  | .parsed j =>
    match j with
    | .obj m0 => do
        let m1 := ensureKey "items" (.arr .nil) m0
        let m2 := ensureKey "attributes" (.arr .nil) m1
        let m3 := ensureKey "last_updated" (.str "") m2
        let filtered ← match m3.lookup "attributes" with
          | some (.arr l) => filterAttrs l
          | some (.str s) => if s == "" then .ok .nil else .error "TypeError: attr is not a dict"
          | some (.obj mm) => if mm.isEmpty then .ok .nil else .error "TypeError: attr is not a dict"
          | _ => .error "TypeError: attributes is not iterable"
        let m4 := m3.set "attributes" (.arr (.cons canonicalID filtered))
        let m5 ← match m4.lookup "items" with
          | some (.arr l) => do
              let l' ← normalizeItems l
              Except.ok (m4.set "items" (.arr l'))
          | some (.str s) => if s == "" then .ok m4 else .error "TypeError: item is not a dict"
          | some (.obj mm) => if mm.isEmpty then .ok m4 else .error "TypeError: item is not a dict"
          | _ => .error "TypeError: items is not iterable"
        .ok (.obj m5)
    | _ => .error "TypeError: top-level value is not a dict"

/-! ## The `ID` normalization invariant (spec section 3) -/

/-- Does an attribute entry carry the name `"ID"`? -/
def attrNameIsID (a : Json) : Bool :=
  match a with
  | .obj m => m.lookup "name" == some (.str "ID")
  | _ => false

/-- One item satisfies the invariant: it is a dict whose
`attribute_values` dict maps `"ID"` to the item's own `id`. -/
def itemOk (it : Json) : Bool :=
  match it with
  | .obj m =>
      match m.lookup "id", m.lookup "attribute_values" with
      | some idv, some (.obj av) => av.lookup "ID" == some idv
      | _, _ => false
  | _ => false

/-- The dataset invariant of spec section 3: `attributes[0]` is the
canonical `ID` attribute, no other attribute is named `ID`, and every
item's `attribute_values["ID"]` equals the item's `id`. -/
def invariantHolds (j : Json) : Bool :=
  match j with
  | .obj m =>
      (match m.lookup "attributes" with
       | some (.arr (.cons a0 rest)) => a0 == canonicalID && rest.all (fun a => !attrNameIsID a)
       | _ => false)
      &&
      (match m.lookup "items" with
       | some (.arr l) => l.all itemOk
       | _ => false)
  | _ => false

/-- Well-shapedness of an attribute list entry: a dict carrying a `name`
key (so the comprehension of line 329 cannot raise on it). -/
def wellShapedAttr (a : Json) : Bool :=
  match a with
  | .obj m => (m.lookup "name").isSome
  | _ => false

/-- Well-shapedness of an item: a dict carrying an `id` key whose
`attribute_values`, when present, is a dict. -/
def wellShapedItem (it : Json) : Bool :=
  match it with
  | .obj m =>
      (m.lookup "id").isSome &&
      (match m.lookup "attribute_values" with
       | none => true
       | some (.obj _) => true
       | some _ => false)
  | _ => false

/-- Well-shapedness of a parsed data file: a dict whose `attributes` key
(when present) is a list of well-shaped attributes and whose `items` key
(when present) is a list of well-shaped items. -/
def wellShaped (j : Json) : Bool :=
  match j with
  | .obj m =>
      (match m.lookup "attributes" with
       | none => true
       | some (.arr l) => l.all wellShapedAttr
       | some _ => false)
      &&
      (match m.lookup "items" with
       | none => true
       | some (.arr l) => l.all wellShapedItem
       | some _ => false)
  | _ => false

/-- Well-formedness of a load input: an absent or unparseable file, or a
well-shaped parsed document. -/
def wellFormedInput : LoadInput → Bool
  | .absent => true
  | .unparseable => true
  | .parsed j => wellShaped j

/-! ## Side-effect events

Each handler / loop embedding returns the ordered list of externally
visible effects it performs, in program order. -/

inductive Event where
  /-- Python `self.dataset_builder.dataset = data` (in-memory store replaced). -/
  | setDataset (d : Json) : Event
  /-- Call of `self.dataset_builder._save_dataset()` on the raw store: the JSON
  file now holds `d`. -/
  | saveDataset (d : Json) : Event
  /-- Call of `_save_dataset()` from the typed `remove_item` path. -/
  | persistDataset : Event
  /-- An HTTP response with this status code and body is written. -/
  | sendResponse (code : Nat) (body : String) : Event
  /-- The `.restart_needed` sentinel file is written and fsynced. -/
  | writeSentinel : Event
  /-- A delayed shutdown of the listener is scheduled on its own
  thread/timer (`threading.Thread(target=shutdown_server)` /
  `threading.Timer(0.5, trigger_shutdown)`). -/
  | scheduleDelayedShutdown : Event
  /-- A synchronous, in-handler `self.server.shutdown()` call.  The code
  never performs this; the constructor exists so its absence is a
  statement about the code rather than about the event vocabulary. -/
  | shutdownNow : Event
  /-- Call of `self.dataset_builder.scan_images()`. -/
  | scanImages : Event
  /-- Call of `self.dataset_builder.generate_html()` / `self.generate_html()`. -/
  | generateHtml : Event
  /-- Call of `image_path.unlink()` inside `remove_item` (path relative to the
  output directory). -/
  | deleteImageFile (path : String) : Event
  /-- Call of `restart_flag_file.unlink()`. -/
  | deleteSentinel : Event
  /-- The restart-monitor thread is started. -/
  | startMonitor : Event
  /-- Constructor call `HTTPServer(("", port), handler)` (bind attempt). -/
  | bindAttempt (port : Nat) : Event
  /-- The bind succeeded; the server listens on this port. -/
  | bound (port : Nat) : Event
  /-- Return of `httpd.serve_forever()` (after a `shutdown()` call). -/
  | serveReturned : Event
  /-- Check `restart_flag_file.exists()` evaluated to `b` in the main loop. -/
  | checkSentinel (b : Bool) : Event
  /-- Call of `time.sleep(n)`. -/
  | sleepSec (n : Nat) : Event
  /-- The main run loop exits (final shutdown). -/
  | exitLoop : Event
deriving DecidableEq

/-! ## HTTP response bodies -/

/-- Python `json.dumps` of the status/message error dict. -/
def jsonErrorBody (msg : String) : String :=
  "\x7b\"status\": \"error\", \"message\": \"" ++ msg ++ "\"\x7d"

/-- The `/save` success body (line 126). -/
def saveSuccessBody : String := "\x7b\"status\": \"success\"\x7d"

/-- The `/restart` success body (lines 178-181). -/
def restartBody : String := "\x7b\"status\": \"success\", \"message\": \"Server restarting...\"\x7d"

/-- The `/remove` missing-id body (lines 140-141), exactly as in the source. -/
def itemIdRequiredBody : String := "\x7b\"status\": \"error\", \"message\": \"Item ID is required\"\x7d"

/-- The `/remove` unknown-id body (lines 155-156): the f-string
interpolates the requested id. -/
def notFoundBody (itemId : String) : String :=
  "\x7b\"status\": \"error\", \"message\": \"Item " ++ itemId ++ " not found\"\x7d"

/-- The `/remove` success body (lines 147-152), abstracting the
interpolated items/timestamp JSON. -/
def removeSuccessBody (itemId : String) : String :=
  "\x7b\"status\": \"success\", \"message\": \"Item " ++ itemId ++ " removed successfully\", ...\x7d"

/-- The `/refresh` success body (lines 253-258), abstracting the
interpolated items/timestamp/count JSON. -/
def refreshBody : String := "\x7b\"status\": \"success\", ...\x7d"

/-- Result of a POST handler over the raw JSON store: the store after the
request, the response status/body, and the ordered effect trace. -/
structure HandlerResult where
  store : Json
  code : Nat
  body : String
  events : List Event
deriving DecidableEq

/-! ## The `/save` handler (do_POST, lines 121-133)

`parse` is the result of `json.loads(post_data)` (`none` = it raised),
`excMsg` the text of the exception used in the 500 body, `saveOk` whether
`_save_dataset()` succeeds (disk writes work).  On a parse failure the
assignment `self.dataset_builder.dataset = data` is never reached, so the
store is unchanged. On a save failure the store HAS already been replaced
(line 124 precedes line 125) and the handler answers 500. -/
def savePOST (parse : Option Json) (excMsg : String) (saveOk : Bool) (cur : Json) :
    HandlerResult :=
  match parse with
  | none =>
      ⟨cur, 500, jsonErrorBody excMsg,
        [.sendResponse 500 (jsonErrorBody excMsg)]⟩
  | some data =>
      if saveOk then
        ⟨data, 200, saveSuccessBody,
          [.setDataset data, .saveDataset data, .sendResponse 200 saveSuccessBody]⟩
      else
        ⟨data, 500, jsonErrorBody excMsg,
          [.setDataset data, .sendResponse 500 (jsonErrorBody excMsg)]⟩

/-! ## The `/restart` handler (do_POST, lines 164-229)

The save step sits in an inner `try` whose failure is only logged
("Warning: Could not save data during restart"), after which the handler
STILL answers 200, writes the sentinel and schedules the delayed
shutdown.  The actual `server.shutdown()` happens on a separate daemon
thread after a 1 second sleep; the handler never calls it synchronously. -/
def restartPOST (parse : Option Json) (saveOk : Bool) (cur : Json) : HandlerResult :=
  let saveStep : Json × List Event :=
    match parse with
    | some data =>
        if saveOk then (data, [.setDataset data, .saveDataset data])
        else (data, [.setDataset data])
    | none => (cur, [])
  ⟨saveStep.1, 200, restartBody,
    saveStep.2 ++
      [.sendResponse 200 restartBody, .writeSentinel, .scheduleDelayedShutdown]⟩

/-! ## The `/refresh` handler (do_POST, lines 230-268)

Like `/restart`, the optional save step swallows its own failures
("Warning: Could not save data during refresh") and the handler proceeds:
it reruns the directory scan (an external collaborator, modelled by the
oracle `scan`), regenerates the page, and answers 200. `hasBody` is
`content_length > 0`; with an empty body the parse step is skipped
entirely. -/
def refreshPOST (scan : Json → Json) (hasBody : Bool) (parse : Option Json)
    (saveOk : Bool) (cur : Json) : HandlerResult :=
  let saveStep : Json × List Event :=
    if hasBody then
      match parse with
      | some data =>
          if saveOk then (data, [.setDataset data, .saveDataset data])
          else (data, [.setDataset data])
      | none => (cur, [])
    else (cur, [])
  let scanned := scan saveStep.1
  ⟨scanned, 200, refreshBody,
    saveStep.2 ++ [.scanImages, .generateHtml, .sendResponse 200 refreshBody]⟩

/-! ## The typed dataset store and `remove_item`

`remove_item` (dataset_builder.py lines 424-464) reads the normalized
dataset shape that `_load_existing_data` / `scan_images` establish:
`items` is a list of dicts with string `id`, `image`, `notes` fields and
a string-valued `attribute_values` dict.  The embedding uses a typed
record for that shape. -/

structure Item where
  id : String
  image : String
  attribute_values : List (String × String)
  notes : String
deriving DecidableEq

structure Attr where
  name : String
  description : String
  readonly : Bool
deriving DecidableEq

structure Dataset where
  items : List Item
  attributes : List Attr
  last_updated : String
deriving DecidableEq

/-- The method `DatasetBuilder.remove_item` (lines 424-464).

`now` is `datetime.now().isoformat()`; `imgExists` is the result of
`image_path.exists()`.  The item search is `find first with matching id`;
on a miss the function returns `False` having touched nothing (no save,
no deletion, no timestamp update).  On a hit it FIRST unlinks the image
file itself (when the `image` field is truthy and the file exists; unlink
failures are only logged), then drops every item with that id, updates
`last_updated` and saves.  The result is `(returned bool, new dataset,
effect trace)`; note the caller receives no file path. -/
def remove_item (d : Dataset) (itemId : String) (now : String) (imgExists : Bool) :
    Bool × Dataset × List Event :=
  match d.items.find? (fun it => it.id == itemId) with
  | none => (false, d, [])
  | some found =>
      let delEvents :=
        if found.image != "" && imgExists then [Event.deleteImageFile found.image] else []
      let d' : Dataset :=
        { items := d.items.filter (fun it => it.id != itemId)
          attributes := d.attributes
          last_updated := now }
      (true, d', delEvents ++ [Event.persistDataset])

/-- Result of the `/remove` handler, whose store is the typed dataset. -/
structure RemoveResult where
  store : Dataset
  code : Nat
  body : String
  events : List Event
deriving DecidableEq

/-- Python `str(v)` on a parsed JSON scalar, used by the f-string in the
404 body when the client sent a non-string truthy `item_id`. -/
def pyStr : Json → String
  | .null => "None"
  | .bool b => if b then "True" else "False"
  | .num n => toString n
  | .str s => s
  | .arr _ => "[...]"
  | .obj _ => "\x7b...\x7d"

/-- The `/remove` handler (do_POST, lines 134-163).

* an unparseable body raises `json.JSONDecodeError`, caught by the
  per-endpoint `except` which answers 500;
* a parseable non-dict body makes `data.get('item_id')` raise
  `AttributeError`, caught by the same `except`: also 500;
* a dict body with an absent or falsy `item_id` answers 400 with the
  literal `Item ID is required` body, before any store access;
* otherwise `remove_item` runs; a truthy non-string id can match no item
  (ids are strings), giving the same 404 as an unknown string id. -/
def removePOST (parse : Option Json) (excMsg : String) (store : Dataset)
    (now : String) (imgExists : Bool) : RemoveResult :=
  match parse with
  | none =>
      ⟨store, 500, jsonErrorBody excMsg, [.sendResponse 500 (jsonErrorBody excMsg)]⟩
  | some (.obj m) =>
      let idv := m.lookup "item_id"
      match idv with
      | none =>
          ⟨store, 400, itemIdRequiredBody, [.sendResponse 400 itemIdRequiredBody]⟩
      | some v =>
          if jsonFalsy v then
            ⟨store, 400, itemIdRequiredBody, [.sendResponse 400 itemIdRequiredBody]⟩
          else
            match v with
            | .str s =>
                match remove_item store s now imgExists with
                | (true, d', evs) =>
                    ⟨d', 200, removeSuccessBody s, evs ++ [.sendResponse 200 (removeSuccessBody s)]⟩
                | (false, d', evs) =>
                    ⟨d', 404, notFoundBody s, evs ++ [.sendResponse 404 (notFoundBody s)]⟩
            | other =>
                ⟨store, 404, notFoundBody (pyStr other),
                  [.sendResponse 404 (notFoundBody (pyStr other))]⟩
  | some _ =>
      ⟨store, 500, jsonErrorBody excMsg, [.sendResponse 500 (jsonErrorBody excMsg)]⟩

/-! ## The restart monitor thread (run_server, lines 2103-2149)

On detecting the sentinel, `check_restart_needed` rescans, regenerates
the page, arms a 0.5 s `threading.Timer` that will call
`httpd.shutdown()`, and returns.  It deliberately does NOT remove the
sentinel (lines 2121-2122). -/
def monitorOnFlag : List Event :=
  [Event.scanImages, Event.generateHtml, Event.scheduleDelayedShutdown]

/-! ## The main run loop (run_server, lines 2042-2216) -/

/-- What one iteration of the `while True` loop observes: the
`HTTPServer` constructor raises `OSError` with errno 98/10048 (port in
use), some other bind/runtime error is raised (with the viewer page
present or missing on disk at retry time), or the bind succeeds and
`serve_forever()` later returns, at which point the sentinel file either
exists (`sentinelAfter = true`) or not. -/
inductive IterOutcome where
  | portInUse : IterOutcome
  | otherError (htmlMissing : Bool) : IterOutcome
  | served (sentinelAfter : Bool) : IterOutcome
deriving DecidableEq

/-- The `while True` loop of run_server (lines 2151-2216), as an event
trace.  `oracle` gives each iteration's outcome, `fuel` bounds the number
of iterations (the real loop may run forever).  Per the source:

* each iteration first starts a monitor thread, then attempts the bind;
* errno 98/10048: `port += 1` and an immediate retry, `retry_delay`
  untouched, no sleep (lines 2190-2192);
* any other error: `time.sleep(retry_delay)`, then
  `retry_delay = min(retry_delay * 2, 30)`, regenerating the viewer page
  first if it is missing (lines 2193-2208);
* successful bind: `retry_delay` resets to 1 and `serve_forever()` blocks;
  when it returns the loop checks the sentinel: if present it unlinks it,
  sleeps 1 s and loops back to rebind on the SAME port; if absent it
  breaks out (final shutdown). -/
def runLoop (oracle : Nat → IterOutcome) (port delay step : Nat) : Nat → List Event
  | 0 => []
  | fuel + 1 =>
    match oracle step with
    | .portInUse =>
        Event.startMonitor :: Event.bindAttempt port ::
          runLoop oracle (port + 1) delay (step + 1) fuel
    | .otherError htmlMissing =>
        Event.startMonitor :: Event.bindAttempt port :: Event.sleepSec delay ::
          ((if htmlMissing then [Event.generateHtml] else []) ++
            runLoop oracle port (min (delay * 2) 30) (step + 1) fuel)
    | .served sentinelAfter =>
        Event.startMonitor :: Event.bindAttempt port :: Event.bound port ::
          Event.serveReturned :: Event.checkSentinel sentinelAfter ::
          (if sentinelAfter then
            Event.deleteSentinel :: Event.sleepSec 1 ::
              runLoop oracle port 1 (step + 1) fuel
          else [Event.exitLoop])

/-- The method `run_server` up to and including the loop (lines 2042-2216): any
pre-existing sentinel file is unlinked (lines 2060-2063), the viewer page
is generated, and the loop starts with the CLI port and a 1 second retry
delay. -/
def runServer (oracle : Nat → IterOutcome) (initialSentinel : Bool) (port fuel : Nat) :
    List Event :=
  (if initialSentinel then [Event.deleteSentinel] else []) ++
    Event.generateHtml :: runLoop oracle port 1 0 fuel

/-! ## The filter/search engine

`applyFiltersAndSearch` from the generated viewer page
(dataset_builder.py lines 1795-1863, JavaScript).  Strings are compared
character-wise; `toLowerCase` / `includes` / `startsWith` / `endsWith`
are modelled on the character lists. -/

/-- Per-character lowercasing (JavaScript `toLowerCase`). -/
def strLower (s : String) : String := String.mk (s.data.map Char.toLower)

/-- JavaScript `s.includes(pat)`. -/
def strContains (s pat : String) : Bool := decide (pat.data.IsInfix s.data)

/-- JavaScript `s.startsWith(pat)`. -/
def strStarts (s pat : String) : Bool := List.isPrefixOf pat.data s.data

/-- JavaScript `s.endsWith(pat)`. -/
def strEnds (s pat : String) : Bool := List.isSuffixOf pat.data s.data

/-- Property lookup on a JS object modelled as an association list. -/
def lookupStr (k : String) (m : List (String × String)) : Option String :=
  (m.find? (fun kv => kv.1 == k)).map (fun kv => kv.2)

/-- An item as the viewer page sees it.  `attribute_values` is a JS
object of string values (an absent object behaves like an empty one in
both the search loop and the filter lookup); `notes` a string. -/
structure JSItem where
  id : String
  attribute_values : List (String × String)
  notes : String
deriving DecidableEq

/-- The five filter operators of the `switch` at lines 1841-1854.  (The
JS `default: return false` branch is unreachable for these.) -/
inductive FilterOp where
  | equals : FilterOp
  | notEquals : FilterOp
  | contains : FilterOp
  | startsWith : FilterOp
  | endsWith : FilterOp
deriving DecidableEq

/-- One active filter `{attribute, operator, value}`; the attribute field
is named `attr` here because `attribute` is a Lean keyword. -/
structure ActiveFilter where
  attr : String
  operator : FilterOp
  value : String
deriving DecidableEq

/-- The search predicate of lines 1801-1826.  `searchTerm` is used as
given (the page lowercases and trims the input box BEFORE storing it in
the global `searchTerm`, at line 1612; `applyFiltersAndSearch` itself
performs no lowercasing of the term).  Note the JS operator precedence in
the attribute loop: `value && value...includes(term) || key...includes(term)`
parses as `(value && ...) || ...`, so a falsy (empty) value still lets
the attribute NAME match. -/
def searchMatches (searchTerm : String) (it : JSItem) : Bool :=
  strContains (strLower it.id) searchTerm ||
  it.attribute_values.any (fun kv =>
    (kv.2 != "" && strContains (strLower kv.2) searchTerm) ||
    strContains (strLower kv.1) searchTerm) ||
  (it.notes != "" && strContains (strLower it.notes) searchTerm)

/-- One filter's test, lines 1833-1855: the item's value for the filtered
attribute (a falsy/absent value becomes `''`) is lowercased and compared
with the lowercased filter value under the operator. -/
def filterMatches (f : ActiveFilter) (it : JSItem) : Bool :=
  let itemValue := strLower ((lookupStr f.attr it.attribute_values).getD "")
  let filterValue := strLower f.value
  match f.operator with
  | .equals => itemValue == filterValue
  | .notEquals => itemValue != filterValue
  | .contains => strContains itemValue filterValue
  | .startsWith => strStarts itemValue filterValue
  | .endsWith => strEnds itemValue filterValue

/-- The page function `applyFiltersAndSearch` (lines 1795-1863): start from all items; if
the search term is truthy (non-empty) keep only search matches; if any
filters are active keep only items passing every filter (AND). -/
def applyFiltersAndSearch (items : List JSItem) (searchTerm : String)
    (activeFilters : List ActiveFilter) : List JSItem :=
  let results := items
  let results := if searchTerm != "" then results.filter (searchMatches searchTerm) else results
  if activeFilters.length > 0 then
    results.filter (fun it => activeFilters.all (fun f => filterMatches f it))
  else results

/-! ### The spec-side visibility predicate (claim C8's words)

"the items that (a) when the search term is non-empty, contain the term
case-insensitively as a substring of the item's id, of some attribute
value or attribute name, or of the notes field, and (b) satisfy every
active filter, where each filter compares the item's lower-cased
attribute value (absent treated as empty string) to the lower-cased
filter value with the named operator". -/

/-- Case-insensitive substring containment, per the claim's words. -/
def ciContains (hay term : String) : Bool := strContains (strLower hay) (strLower term)

/-- Clause (a) of the claim. -/
def specSearchHit (term : String) (it : JSItem) : Bool :=
  ciContains it.id term ||
  it.attribute_values.any (fun kv => ciContains kv.2 term || ciContains kv.1 term) ||
  ciContains it.notes term

/-- Clause (b) of the claim, for one filter. -/
def specFilterHit (f : ActiveFilter) (it : JSItem) : Bool :=
  let itemValue := strLower ((lookupStr f.attr it.attribute_values).getD "")
  let filterValue := strLower f.value
  match f.operator with
  | .equals => itemValue == filterValue
  | .notEquals => itemValue != filterValue
  | .contains => strContains itemValue filterValue
  | .startsWith => strStarts itemValue filterValue
  | .endsWith => strEnds itemValue filterValue

/-- The claim's full visibility predicate: pass the search clause (if the
term is non-empty) and every active filter. -/
def specVisible (term : String) (filters : List ActiveFilter) (it : JSItem) : Bool :=
  (term == "" || specSearchHit term it) && filters.all (fun f => specFilterHit f it)

/-! ## Concrete values used by counterexamples and witnesses -/

/-- A syntactically valid `/save` payload that carries no `ID` attribute:
`{"items": [], "attributes": [], "last_updated": ""}`. -/
def noIDPayload : Json :=
  .obj (.cons "items" (.arr .nil) (.cons "attributes" (.arr .nil)
    (.cons "last_updated" (.str "") .nil)))

/-- A one-item typed dataset whose item has an image file. -/
def dsOne : Dataset :=
  { items := [⟨"a", "images/a.png", [("ID", "a")], ""⟩]
    attributes := [⟨"ID", "", true⟩]
    last_updated := "2024-01-01T00:00:00" }

/-- The oracle for the C3 witness: the bind succeeds and
`serve_forever()` returns with the sentinel present. -/
def c3Oracle : Nat → IterOutcome := fun _ => .served true

/-- The oracle for the C9 witness: port in use, then a transient error
with the viewer page missing, then a successful bind and a final
shutdown. -/
def c9Oracle : Nat → IterOutcome := fun st =>
  if st = 0 then .portInUse else if st = 1 then .otherError true else .served false

/-- A well-shaped but unnormalized data file for the C5 witness: a stray
`ID` attribute to be dropped, a `species` attribute to survive, one item
with no `attribute_values` and one with a stale `ID` value, and no
`last_updated` key. -/
def loadWitnessDoc : Json :=
  .obj (.cons "items"
    (.arr (.cons (.obj (.cons "id" (.str "a") .nil))
      (.cons (.obj (.cons "id" (.str "b")
        (.cons "attribute_values" (.obj (.cons "ID" (.str "stale") .nil)) .nil))) .nil)))
    (.cons "attributes"
      (.arr (.cons (.obj (.cons "name" (.str "ID") .nil))
        (.cons (.obj (.cons "name" (.str "species")
          (.cons "description" (.str "") (.cons "readonly" (.bool false) .nil)))) .nil)))
      .nil))

/-! # Claims -/

/-- C1 counterexample.  The `/save` handler (lines 121-126) runs
`self.dataset_builder.dataset = data; self.dataset_builder._save_dataset()`
with no normalization step, so a payload with an empty `attributes` list
is stored and persisted as-is: after this successful `/save` the stored
dataset has NO attribute at position 0 at all, violating the claimed
invariant. -/
theorem c1_save_skips_normalization_counterexample :
    (savePOST (some noIDPayload) "disk error" true emptyDataset).store = noIDPayload ∧
    Event.saveDataset noIDPayload ∈
      (savePOST (some noIDPayload) "disk error" true emptyDataset).events ∧
    invariantHolds (savePOST (some noIDPayload) "disk error" true emptyDataset).store
      = false := by
  decide

/-- C1 amended: a successful `/save` stores and persists the client
payload verbatim — the replace path re-applies no `ID` normalization, so
the stored dataset satisfies the invariant exactly when the payload
already did.  (Normalization only happens on the next
`_load_existing_data`.) -/
theorem c1_save_persists_payload_verbatim (p cur : Json) (excMsg : String) :
    (savePOST (some p) excMsg true cur).store = p ∧
    Event.saveDataset p ∈ (savePOST (some p) excMsg true cur).events ∧
    invariantHolds (savePOST (some p) excMsg true cur).store = invariantHolds p := by
  refine ⟨rfl, ?_, rfl⟩
  simp [savePOST]

/-- C2: for a `/restart` request whose body parses (and with disk writes
succeeding), the handler's effect trace is exactly: replace the store,
persist it, send the 200 success response, write the sentinel file,
schedule the delayed shutdown.  In particular the payload is persisted
and the sentinel written before the handler returns, the 200 response
precedes the shutdown scheduling, and no synchronous shutdown is ever
invoked inside the handler. -/
theorem c2_restart_ordering (p cur : Json) :
    (restartPOST (some p) true cur).events =
      [.setDataset p, .saveDataset p, .sendResponse 200 restartBody,
        .writeSentinel, .scheduleDelayedShutdown] ∧
    Event.saveDataset p ∈ (restartPOST (some p) true cur).events ∧
    Event.writeSentinel ∈ (restartPOST (some p) true cur).events ∧
    (∃ i j, (restartPOST (some p) true cur).events.get? i =
        some (.sendResponse 200 restartBody) ∧
      (restartPOST (some p) true cur).events.get? j = some .scheduleDelayedShutdown ∧
      i < j) ∧
    Event.shutdownNow ∉ (restartPOST (some p) true cur).events := by
  refine ⟨rfl, ?_, ?_, ⟨2, 4, rfl, rfl, by omega⟩, ?_⟩ <;> simp [restartPOST]

/-- C4 counterexample.  A `/restart` request whose body is NOT valid JSON
is answered with status 200 and the success body: the parse failure is
swallowed by the inner `try` (lines 169-175, "Warning: Could not save
data during restart") and the handler proceeds.  The claimed 4xx/5xx
error answer is false for `/restart` (and likewise for `/refresh`). -/
theorem c4_invalid_json_counterexample :
    (restartPOST none true emptyDataset).code = 200 ∧
    (restartPOST none true emptyDataset).body = restartBody ∧
    ¬(400 ≤ (restartPOST none true emptyDataset).code) ∧
    (refreshPOST id true none true emptyDataset).code = 200 := by
  refine ⟨rfl, rfl, by decide, rfl⟩

/-- C4 amended: an invalid JSON body never touches the in-memory store on
any of the three endpoints, but only `/save` answers with an error
status: `/save` replies 500 with a JSON error body and leaves the store
untouched; `/restart` and `/refresh` log the failure, leave the store
unchanged by the parse step, and proceed to a 200 success response
(`/refresh` then hands the unchanged store to the directory rescan). -/
theorem c4_invalid_json_behaviour (excMsg : String) (cur : Json) (scan : Json → Json) :
    ((savePOST none excMsg true cur).code = 500 ∧
      (savePOST none excMsg true cur).body = jsonErrorBody excMsg ∧
      (savePOST none excMsg true cur).store = cur ∧
      (∀ d, Event.setDataset d ∉ (savePOST none excMsg true cur).events)) ∧
    ((restartPOST none true cur).store = cur ∧
      (restartPOST none true cur).code = 200 ∧
      (∀ d, Event.setDataset d ∉ (restartPOST none true cur).events)) ∧
    ((refreshPOST scan true none true cur).store = scan cur ∧
      (refreshPOST scan true none true cur).code = 200 ∧
      (∀ d, Event.setDataset d ∉ (refreshPOST scan true none true cur).events)) := by
  refine ⟨⟨rfl, rfl, rfl, ?_⟩, ⟨rfl, rfl, ?_⟩, ⟨rfl, rfl, ?_⟩⟩ <;>
    intro d <;> simp [savePOST, restartPOST, refreshPOST]

/-- C10 counterexample.  A body that is valid JSON but not an object —
here the document `5` — has no `item_id` field, yet the handler answers
500, not 400: `data.get('item_id')` raises `AttributeError`, caught by
the per-endpoint `except` (lines 157-163). -/
theorem c10_nonobject_body_counterexample :
    (removePOST (some (.num 5)) "AttributeError" dsOne "t" true).code = 500 ∧
    (removePOST (some (.num 5)) "AttributeError" dsOne "t" true).code ≠ 400 ∧
    (removePOST (some (.num 5)) "AttributeError" dsOne "t" true).body
      ≠ itemIdRequiredBody := by
  decide

/-- C10 amended: for a `/remove` body that parses to a JSON OBJECT whose
`item_id` is absent or falsy (empty), the handler answers 400 with
exactly `{"status": "error", "message": "Item ID is required"}`, the
store is untouched, and no removal or save is attempted (the response
write is the only effect). -/
theorem c10_missing_item_id (m : JsonKVs) (excMsg : String) (store : Dataset)
    (now : String) (imgExists : Bool)
    (h : m.lookup "item_id" = none ∨
      ∃ v, m.lookup "item_id" = some v ∧ jsonFalsy v = true) :
    removePOST (some (.obj m)) excMsg store now imgExists =
      ⟨store, 400, itemIdRequiredBody, [.sendResponse 400 itemIdRequiredBody]⟩ := by
  rcases h with h | ⟨v, hv, hf⟩
  · simp [removePOST, h]
  · simp [removePOST, hv, hf]

/-- C10 witness: the empty-object body `{}` (which is also what an empty
request body defaults to, line 119) has no `item_id` and draws the 400
answer. -/
theorem c10_missing_item_id_witness :
    JsonKVs.nil.lookup "item_id" = none ∧
    removePOST (some (.obj .nil)) "e" dsOne "t" true =
      ⟨dsOne, 400, itemIdRequiredBody, [.sendResponse 400 itemIdRequiredBody]⟩ :=
  ⟨rfl, c10_missing_item_id .nil "e" dsOne "t" true (Or.inl rfl)⟩

/-- C6: an id matching no item makes `remove_item` return `False` with
the dataset (items, attributes, `last_updated`) untouched and no effect
at all — no save, no file deletion; and the `/remove` endpoint turns
this into a 404 response with the JSON error body
`{"status": "error", "message": "Item <id> not found"}` (the handler is
a total function here — nothing raises on this path).  The endpoint
conjunct assumes a non-empty id, since an empty id is stopped earlier by
the `Item ID is required` validation. -/
theorem c6_remove_unknown_id (d : Dataset) (iid now excMsg : String) (imgExists : Bool)
    (hmiss : ∀ it ∈ d.items, it.id ≠ iid) (hne : iid ≠ "") :
    remove_item d iid now imgExists = (false, d, []) ∧
    removePOST (some (.obj (.cons "item_id" (.str iid) .nil))) excMsg d now imgExists =
      ⟨d, 404, notFoundBody iid, [.sendResponse 404 (notFoundBody iid)]⟩ := by
  have hfind : d.items.find? (fun it => it.id == iid) = none := by
    rw [List.find?_eq_none]
    intro it hit
    simpa using hmiss it hit
  constructor
  · simp [remove_item, hfind]
  · simp [removePOST, JsonKVs.lookup, jsonFalsy, hne, remove_item, hfind]

/-- C6 witness: removing the unknown id `"zzz"` from the one-item
dataset. -/
theorem c6_remove_unknown_id_witness :
    ((∀ it ∈ dsOne.items, it.id ≠ "zzz") ∧ "zzz" ≠ "") ∧
    (remove_item dsOne "zzz" "t" true = (false, dsOne, []) ∧
      removePOST (some (.obj (.cons "item_id" (.str "zzz") .nil))) "e" dsOne "t" true =
        ⟨dsOne, 404, notFoundBody "zzz", [.sendResponse 404 (notFoundBody "zzz")]⟩) :=
  ⟨⟨by decide, by decide⟩,
    c6_remove_unknown_id dsOne "zzz" "t" "e" true (by decide) (by decide)⟩

/-- C7 counterexample.  `remove_item` itself unlinks the image file
(lines 444-452): removing item `"a"` of `dsOne` emits the
`deleteImageFile` effect from inside the store operation, and the
caller gets back only a boolean — no path is identified for the caller
to delete.  This refutes "the store itself performs no filesystem
deletion of the image file". -/
theorem c7_store_deletes_image_counterexample :
    Event.deleteImageFile "images/a.png" ∈ (remove_item dsOne "a" "t" true).2.2 ∧
    (remove_item dsOne "a" "t" true).1 = true := by
  decide

/-- C7 amended: for an id that matches an item (with a non-empty image
field and the file present), `remove_item` removes the item, deletes the
associated image file ITSELF (best-effort, before the save), updates the
timestamp and persists; it returns only a boolean — filesystem deletion
is not delegated to the caller. -/
theorem c7_remove_deletes_image_itself (d : Dataset) (iid now : String) (found : Item)
    (hfind : d.items.find? (fun it => it.id == iid) = some found)
    (himg : found.image ≠ "") :
    remove_item d iid now true =
      (true,
        { items := d.items.filter (fun it => it.id != iid)
          attributes := d.attributes
          last_updated := now },
        [Event.deleteImageFile found.image, Event.persistDataset]) := by
  simp [remove_item, hfind, himg]

/-- C7 witness: removing item `"a"` of `dsOne`. -/
theorem c7_remove_deletes_image_itself_witness :
    (dsOne.items.find? (fun it => it.id == "a") =
        some ⟨"a", "images/a.png", [("ID", "a")], ""⟩ ∧
      ("images/a.png" : String) ≠ "") ∧
    remove_item dsOne "a" "t" true =
      (true,
        { items := [], attributes := dsOne.attributes, last_updated := "t" },
        [Event.deleteImageFile "images/a.png", Event.persistDataset]) :=
  ⟨⟨by decide, by decide⟩,
    c7_remove_deletes_image_itself dsOne "a" "t"
      ⟨"a", "images/a.png", [("ID", "a")], ""⟩ (by decide) (by decide)⟩

/-- Every loop iteration (with fuel left) begins by starting a monitor
thread and attempting a bind on the iteration's port, whatever the
outcome. -/
theorem runLoop_take_two (oracle : Nat → IterOutcome) (port delay step fuel : Nat) :
    (runLoop oracle port delay step (fuel + 1)).take 2 =
      [Event.startMonitor, Event.bindAttempt port] := by
  cases h : oracle step <;> simp [runLoop, h]

/-- C3: the sentinel protocol of the main run loop.  When the blocking
`serve_forever()` returns with the sentinel observed as `s`:
the loop's trace is serve-return, sentinel check, then — iff `s` — a
sentinel unlink followed by a rebind of a fresh listener on the same
port, else a final exit; the sentinel deletion sits strictly between the
listener stop and the rebind; neither the restart-monitor thread nor the
`/restart` handler ever deletes the sentinel (only the main loop does);
and a fresh process with a stale pre-existing sentinel deletes it before
its very first bind. -/
theorem c3_sentinel_state_machine (oracle : Nat → IterOutcome)
    (port delay step fuel : Nat) (s : Bool) (h : oracle step = .served s) :
    (runLoop oracle port delay step (fuel + 1) =
      Event.startMonitor :: Event.bindAttempt port :: Event.bound port ::
        Event.serveReturned :: Event.checkSentinel s ::
        (if s then
          Event.deleteSentinel :: Event.sleepSec 1 :: runLoop oracle port 1 (step + 1) fuel
         else [Event.exitLoop])) ∧
    (s = false →
      runLoop oracle port delay step (fuel + 1) =
        [Event.startMonitor, Event.bindAttempt port, Event.bound port,
          Event.serveReturned, Event.checkSentinel false, Event.exitLoop] ∧
      Event.deleteSentinel ∉ runLoop oracle port delay step (fuel + 1)) ∧
    (s = true → ∀ fuel', (runLoop oracle port 1 (step + 1) (fuel' + 1)).take 2 =
      [Event.startMonitor, Event.bindAttempt port]) ∧
    Event.deleteSentinel ∉ monitorOnFlag ∧
    (∀ parse saveOk cur, Event.deleteSentinel ∉ (restartPOST parse saveOk cur).events) ∧
    (∀ oracle' port' fuel', runServer oracle' true port' fuel' =
      Event.deleteSentinel :: Event.generateHtml :: runLoop oracle' port' 1 0 fuel') := by
  refine ⟨by simp [runLoop, h], ?_, ?_, by decide, ?_, ?_⟩
  · rintro rfl
    refine ⟨by simp [runLoop, h], ?_⟩
    simp [runLoop, h]
  · rintro rfl fuel'
    exact runLoop_take_two oracle port 1 (step + 1) fuel'
  · intro parse saveOk cur
    cases parse <;> cases saveOk <;> simp [restartPOST]
  · intro oracle' port' fuel'
    simp [runServer]

/-- C3 witness: a concrete run in which the serve call returns with the
sentinel present: the loop unlinks the sentinel after the listener
stopped, sleeps, and (fuel exhausted here) would rebind next. -/
theorem c3_sentinel_state_machine_witness :
    runLoop c3Oracle 8000 1 0 1 =
      [Event.startMonitor, Event.bindAttempt 8000, Event.bound 8000,
        Event.serveReturned, Event.checkSentinel true,
        Event.deleteSentinel, Event.sleepSec 1] :=
  (c3_sentinel_state_machine c3Oracle 8000 1 0 0 true rfl).1

/-- C9: the port-bind retry policy.  A port-in-use failure advances to
`port + 1` and retries at once — no sleep, the retry delay untouched;
any other bind/runtime error sleeps for the current delay (regenerating
the viewer page first when it is missing) and doubles the delay up to
the 30-second ceiling; the loop enters with a 1-second delay; and in the
in-use-then-success scenario the server ends up bound on `port + 1`
with no manual intervention. -/
theorem c9_bind_retry_policy (oracle : Nat → IterOutcome)
    (port delay step fuel : Nat) (miss s : Bool)
    (h1 : oracle step = .portInUse)
    (h2 : oracle (step + 1) = .otherError miss)
    (h3 : oracle (step + 2) = .served s) :
    (runLoop oracle port delay step (fuel + 3) =
      Event.startMonitor :: Event.bindAttempt port ::
      Event.startMonitor :: Event.bindAttempt (port + 1) :: Event.sleepSec delay ::
      ((if miss then [Event.generateHtml] else []) ++
        (Event.startMonitor :: Event.bindAttempt (port + 1) :: Event.bound (port + 1) ::
          Event.serveReturned :: Event.checkSentinel s ::
          (if s then
            Event.deleteSentinel :: Event.sleepSec 1 ::
              runLoop oracle (port + 1) 1 (step + 3) fuel
           else [Event.exitLoop])))) ∧
    Event.bound (port + 1) ∈ runLoop oracle port delay step (fuel + 3) ∧
    (∀ o (p d st f : Nat), o st = IterOutcome.portInUse →
      runLoop o p d st (f + 1) =
        Event.startMonitor :: Event.bindAttempt p :: runLoop o (p + 1) d (st + 1) f) ∧
    (∀ o (p d st f : Nat) (m : Bool), o st = IterOutcome.otherError m →
      runLoop o p d st (f + 1) =
        Event.startMonitor :: Event.bindAttempt p :: Event.sleepSec d ::
          ((if m then [Event.generateHtml] else []) ++
            runLoop o p (min (d * 2) 30) (st + 1) f)) ∧
    (∀ o (p f : Nat), runServer o false p f = Event.generateHtml :: runLoop o p 1 0 f) := by
  have hmain : runLoop oracle port delay step (fuel + 3) =
      Event.startMonitor :: Event.bindAttempt port ::
      Event.startMonitor :: Event.bindAttempt (port + 1) :: Event.sleepSec delay ::
      ((if miss then [Event.generateHtml] else []) ++
        (Event.startMonitor :: Event.bindAttempt (port + 1) :: Event.bound (port + 1) ::
          Event.serveReturned :: Event.checkSentinel s ::
          (if s then
            Event.deleteSentinel :: Event.sleepSec 1 ::
              runLoop oracle (port + 1) 1 (step + 3) fuel
           else [Event.exitLoop]))) := by
    show runLoop oracle port delay step ((fuel + 2) + 1) = _
    rw [runLoop, h1]
    show _ :: _ :: runLoop oracle (port + 1) delay (step + 1) ((fuel + 1) + 1) = _
    rw [runLoop, h2]
    show _ :: _ :: _ :: _ :: _ ::
      ((if miss then [Event.generateHtml] else []) ++
        runLoop oracle (port + 1) (min (delay * 2) 30) (step + 2) (fuel + 1)) = _
    rw [runLoop, h3]
  refine ⟨hmain, ?_, ?_, ?_, ?_⟩
  · rw [hmain]
    cases miss <;> simp
  · intro o p d st f h
    rw [runLoop, h]
  · intro o p d st f m h
    rw [runLoop, h]
  · intro o p f
    simp [runServer]

/-- C9 witness: a concrete run hitting all three bind outcomes; the
server ends up bound on port 8001. -/
theorem c9_bind_retry_policy_witness :
    runLoop c9Oracle 8000 1 0 3 =
      [Event.startMonitor, Event.bindAttempt 8000,
        Event.startMonitor, Event.bindAttempt 8001, Event.sleepSec 1,
        Event.generateHtml,
        Event.startMonitor, Event.bindAttempt 8001, Event.bound 8001,
        Event.serveReturned, Event.checkSentinel false, Event.exitLoop] ∧
    Event.bound 8001 ∈ runLoop c9Oracle 8000 1 0 3 :=
  ⟨(c9_bind_retry_policy c9Oracle 8000 1 0 0 true false rfl rfl rfl).1,
    (c9_bind_retry_policy c9Oracle 8000 1 0 0 true false rfl rfl rfl).2.1⟩

/-! ### Dictionary lemmas for the load proof -/

theorem lookup_set_self (m : JsonKVs) (k : String) (v : Json) :
    (m.set k v).lookup k = some v := by
  match m with
  | .nil => simp [JsonKVs.set, JsonKVs.lookup]
  | .cons k' v' rest =>
      by_cases h : k' = k
      · simp [JsonKVs.set, JsonKVs.lookup, h]
      · simp [JsonKVs.set, JsonKVs.lookup, h, lookup_set_self rest k v]

theorem lookup_set_ne (m : JsonKVs) (k k2 : String) (v : Json) (h : k ≠ k2) :
    (m.set k v).lookup k2 = m.lookup k2 := by
  match m with
  | .nil => simp [JsonKVs.set, JsonKVs.lookup, h]
  | .cons k' v' rest =>
      by_cases h' : k' = k
      · subst h'
        simp [JsonKVs.set, JsonKVs.lookup, h]
      · by_cases h2 : k' = k2
        · subst h2
          simp [JsonKVs.set, JsonKVs.lookup, h']
        · simp [JsonKVs.set, JsonKVs.lookup, h', h2, lookup_set_ne rest k k2 v h]

theorem lookup_ensure_self (m : JsonKVs) (k : String) (d : Json) :
    (ensureKey k d m).lookup k = some ((m.lookup k).getD d) := by
  cases h : m.lookup k with
  | none => simp [ensureKey, h, lookup_set_self]
  | some v => simp [ensureKey, h]

theorem lookup_ensure_ne (m : JsonKVs) (k k2 : String) (d : Json) (h : k ≠ k2) :
    (ensureKey k d m).lookup k2 = m.lookup k2 := by
  cases h' : m.lookup k with
  | none => simp [ensureKey, h', lookup_set_ne _ _ _ _ h]
  | some v => simp [ensureKey, h']

/-- The attribute comprehension succeeds on well-shaped attribute lists
and the surviving entries are never named `ID`. -/
theorem filterAttrs_ok (l : JsonList) (h : l.all wellShapedAttr = true) :
    ∃ l', filterAttrs l = .ok l' ∧ l'.all (fun a => !attrNameIsID a) = true := by
  match l with
  | .nil => exact ⟨.nil, rfl, rfl⟩
  | .cons a rest =>
      rw [JsonList.all] at h
      simp only [Bool.and_eq_true] at h
      obtain ⟨h1, h2⟩ := h
      obtain ⟨l', hl', hall⟩ := filterAttrs_ok rest h2
      cases a with
      | obj m =>
          rw [wellShapedAttr] at h1
          obtain ⟨n, hn⟩ := Option.isSome_iff_exists.mp h1
          by_cases hid : n = .str "ID"
          · refine ⟨l', ?_, hall⟩
            rw [filterAttrs]
            simp only [normalizeAttr, hn, hid, if_pos, beq_self_eq_true, hl']
            rfl
          · refine ⟨.cons (.obj m) l', ?_, ?_⟩
            · rw [filterAttrs]
              simp only [normalizeAttr, hn, hl']
              rw [if_neg (by simp [hid])]
              rfl
            · rw [JsonList.all]
              simp only [Bool.and_eq_true]
              refine ⟨?_, hall⟩
              simp [attrNameIsID, hn, hid]
      | null => exact absurd h1 (by simp [wellShapedAttr])
      | bool b => exact absurd h1 (by simp [wellShapedAttr])
      | num n => exact absurd h1 (by simp [wellShapedAttr])
      | str s => exact absurd h1 (by simp [wellShapedAttr])
      | arr l2 => exact absurd h1 (by simp [wellShapedAttr])

/-- One well-shaped item is normalized successfully and satisfies the
per-item invariant afterwards. -/
theorem normalizeItem_ok (it : Json) (h : wellShapedItem it = true) :
    ∃ x, normalizeItem it = .ok x ∧ itemOk x = true := by
  cases it with
  | obj m =>
      rw [wellShapedItem] at h
      simp only [Bool.and_eq_true] at h
      obtain ⟨hid, hav⟩ := h
      obtain ⟨idv, hidv⟩ := Option.isSome_iff_exists.mp hid
      cases hav' : m.lookup "attribute_values" with
      | none =>
          refine ⟨.obj ((m.set "attribute_values" (.obj .nil)).set "attribute_values"
            (.obj (JsonKVs.nil.set "ID" idv))), ?_, ?_⟩
          · rw [normalizeItem]
            simp only [hav', Option.isSome_none, Bool.false_eq_true, if_false]
            rw [lookup_set_ne _ _ _ _ (by decide), hidv, lookup_set_self]
          · rw [itemOk]
            rw [lookup_set_ne _ _ _ _ (by decide), lookup_set_ne _ _ _ _ (by decide), hidv,
              lookup_set_self]
            simp [lookup_set_self]
      | some av =>
          cases av with
          | obj avm =>
              refine ⟨.obj (m.set "attribute_values" (.obj (avm.set "ID" idv))), ?_, ?_⟩
              · rw [normalizeItem]
                simp [hav', hidv]
              · rw [itemOk]
                rw [lookup_set_ne _ _ _ _ (by decide), hidv, lookup_set_self]
                simp [lookup_set_self]
          | null => rw [hav'] at hav; exact absurd hav (by simp)
          | bool b => rw [hav'] at hav; exact absurd hav (by simp)
          | num n => rw [hav'] at hav; exact absurd hav (by simp)
          | str s => rw [hav'] at hav; exact absurd hav (by simp)
          | arr l2 => rw [hav'] at hav; exact absurd hav (by simp)
  | null => exact absurd h (by simp [wellShapedItem])
  | bool b => exact absurd h (by simp [wellShapedItem])
  | num n => exact absurd h (by simp [wellShapedItem])
  | str s => exact absurd h (by simp [wellShapedItem])
  | arr l2 => exact absurd h (by simp [wellShapedItem])

/-- The item loop succeeds on well-shaped item lists and every resulting
item satisfies the per-item invariant. -/
theorem normalizeItems_ok (l : JsonList) (h : l.all wellShapedItem = true) :
    ∃ l', normalizeItems l = .ok l' ∧ l'.all itemOk = true := by
  match l with
  | .nil => exact ⟨.nil, rfl, rfl⟩
  | .cons it rest =>
      rw [JsonList.all] at h
      simp only [Bool.and_eq_true] at h
      obtain ⟨h1, h2⟩ := h
      obtain ⟨x, hx, hok⟩ := normalizeItem_ok it h1
      obtain ⟨l', hl', hall⟩ := normalizeItems_ok rest h2
      refine ⟨.cons x l', ?_, ?_⟩
      · rw [normalizeItems]
        simp only [hx, hl']
        rfl
      · rw [JsonList.all]
        simp [hok, hall]

/-- Reduction of `Except` binds over a success value. -/
theorem exceptBind_ok {α β : Type} (a : α) (f : α → Except String β) :
    (Except.ok a : Except String α) >>= f = f a := rfl

/-- C5 counterexample.  The file content `5` is perfectly parseable JSON,
yet `_load_existing_data` does not return a dataset: `'items' not in 5`
raises `TypeError`, and only `json.JSONDecodeError` is caught (line 343),
so the call — and with it process construction — fails.  This refutes
"for every input file (present or absent, parseable or not), load
returns a dataset ...". -/
theorem c5_load_nonobject_counterexample :
    loadExistingData (.parsed (.num 5)) =
      .error "TypeError: top-level value is not a dict" := rfl

/-- C5 amended: for every input file that is absent, unparseable, or
parses to a well-shaped JSON object (each attribute entry a dict with a
`name`, each item a dict with an `id` and a dict-or-absent
`attribute_values`), load succeeds and the result satisfies the full
normalization invariant: `attributes[0]` is the canonical
`{name: "ID", description: "", readonly: true}` attribute, no other
attribute named `ID` remains, and every item's `attribute_values["ID"]`
equals the item's `id`; in particular an absent file and a parse
failure both yield exactly the empty normalized dataset
`{"items": [], "attributes": [canonical ID], "last_updated": ""}`. -/
theorem c5_load_normalizes (inp : LoadInput) (h : wellFormedInput inp = true) :
    (∃ d, loadExistingData inp = .ok d ∧ invariantHolds d = true) ∧
    loadExistingData .absent = .ok emptyDataset ∧
    loadExistingData .unparseable = .ok emptyDataset ∧
    invariantHolds emptyDataset = true := by
  refine ⟨?_, rfl, rfl, by decide⟩
  cases inp with
  | absent => exact ⟨emptyDataset, rfl, by decide⟩
  | unparseable => exact ⟨emptyDataset, rfl, by decide⟩
  | parsed j =>
    cases j with
    | obj m0 =>
        rw [wellFormedInput, wellShaped] at h
        simp only [Bool.and_eq_true] at h
        obtain ⟨hA, hI⟩ := h
        have hAex : ∃ la, (m0.lookup "attributes").getD (.arr .nil) = .arr la ∧
            la.all wellShapedAttr = true := by
          cases hA0 : m0.lookup "attributes" with
          | none => exact ⟨.nil, by simp [hA0], rfl⟩
          | some v =>
              rw [hA0] at hA
              cases v with
              | arr la => exact ⟨la, by simp [hA0], hA⟩
              | null => exact absurd hA (by simp)
              | bool b => exact absurd hA (by simp)
              | num n => exact absurd hA (by simp)
              | str s2 => exact absurd hA (by simp)
              | obj mm => exact absurd hA (by simp)
        have hIex : ∃ li, (m0.lookup "items").getD (.arr .nil) = .arr li ∧
            li.all wellShapedItem = true := by
          cases hI0 : m0.lookup "items" with
          | none => exact ⟨.nil, by simp [hI0], rfl⟩
          | some v =>
              rw [hI0] at hI
              cases v with
              | arr li => exact ⟨li, by simp [hI0], hI⟩
              | null => exact absurd hI (by simp)
              | bool b => exact absurd hI (by simp)
              | num n => exact absurd hI (by simp)
              | str s2 => exact absurd hI (by simp)
              | obj mm => exact absurd hI (by simp)
        obtain ⟨la, hla, hlaall⟩ := hAex
        obtain ⟨li, hli, hliall⟩ := hIex
        obtain ⟨fa, hfa, hfaall⟩ := filterAttrs_ok la hlaall
        obtain ⟨li', hli', hliok⟩ := normalizeItems_ok li hliall
        have e3a : (ensureKey "last_updated" (.str "") (ensureKey "attributes" (.arr .nil)
            (ensureKey "items" (.arr .nil) m0))).lookup "attributes" = some (.arr la) := by
          rw [lookup_ensure_ne _ _ _ _ (by decide), lookup_ensure_self,
            lookup_ensure_ne _ _ _ _ (by decide), hla]
        have e4i : ((ensureKey "last_updated" (.str "") (ensureKey "attributes" (.arr .nil)
            (ensureKey "items" (.arr .nil) m0))).set "attributes"
              (.arr (.cons canonicalID fa))).lookup "items" = some (.arr li) := by
          rw [lookup_set_ne _ _ _ _ (by decide), lookup_ensure_ne _ _ _ _ (by decide),
            lookup_ensure_ne _ _ _ _ (by decide), lookup_ensure_self, hli]
        refine ⟨.obj ((((ensureKey "last_updated" (.str "")
            (ensureKey "attributes" (.arr .nil) (ensureKey "items" (.arr .nil) m0))).set
              "attributes" (.arr (.cons canonicalID fa))).set "items" (.arr li'))), ?_, ?_⟩
        · simp only [loadExistingData, e3a, hfa, e4i, hli', exceptBind_ok]
        · rw [invariantHolds]
          have i1 : ((((ensureKey "last_updated" (.str "") (ensureKey "attributes" (.arr .nil)
              (ensureKey "items" (.arr .nil) m0))).set "attributes"
                (.arr (.cons canonicalID fa))).set "items" (.arr li'))).lookup "attributes" =
              some (.arr (.cons canonicalID fa)) := by
            rw [lookup_set_ne _ _ _ _ (by decide), lookup_set_self]
          have i2 : ((((ensureKey "last_updated" (.str "") (ensureKey "attributes" (.arr .nil)
              (ensureKey "items" (.arr .nil) m0))).set "attributes"
                (.arr (.cons canonicalID fa))).set "items" (.arr li'))).lookup "items" =
              some (.arr li') := lookup_set_self _ _ _
          simp only [i1, i2]
          simp [hfaall, hliok]
    | null => simp [wellFormedInput, wellShaped] at h
    | bool b => simp [wellFormedInput, wellShaped] at h
    | num n => simp [wellFormedInput, wellShaped] at h
    | str s2 => simp [wellFormedInput, wellShaped] at h
    | arr l2 => simp [wellFormedInput, wellShaped] at h

/-- C5 witness: a concrete well-shaped but unnormalized document (stray
`ID` attribute, an item with no `attribute_values`, an item with a stale
`ID` value, no `last_updated`) loads successfully into an
invariant-satisfying dataset, and an absent or unparseable file loads to
exactly the empty normalized dataset. -/
theorem c5_load_normalizes_witness :
    wellFormedInput (.parsed loadWitnessDoc) = true ∧
    ((∃ d, loadExistingData (.parsed loadWitnessDoc) = .ok d ∧ invariantHolds d = true) ∧
      loadExistingData .absent = .ok emptyDataset ∧
      loadExistingData .unparseable = .ok emptyDataset ∧
      invariantHolds emptyDataset = true) :=
  ⟨by decide, c5_load_normalizes (.parsed loadWitnessDoc) (by decide)⟩

/-! ### Lemmas for the filter/search engine -/

/-- A non-empty pattern is no substring of the empty string. -/
theorem strContains_empty_hay (t : String) (h : t ≠ "") : strContains "" t = false := by
  rw [strContains]
  simp only [decide_eq_false_iff_not]
  intro hinf
  have hnil : t.data = [] := by simpa using hinf
  exact h (by cases t; simp_all)

/-- With a non-empty search term, the JS truthiness guard on an
attribute value is redundant: an empty value can never contain the
term. -/
theorem truthyGuard_eq (term v : String) (hne : term ≠ "") :
    (v != "" && strContains (strLower v) term) = strContains (strLower v) term := by
  by_cases hv : v = ""
  · subst hv
    have : strLower "" = "" := rfl
    rw [this, strContains_empty_hay term hne]
    simp
  · simp [hv]

/-- Pointwise congruence for `List.any`. -/
theorem any_congr {α : Type} (p q : α → Bool) (l : List α) (h : ∀ x, p x = q x) :
    l.any p = l.any q := by
  induction l with
  | nil => rfl
  | cons a t ih => simp [List.any_cons, h a, ih]

/-- The engine's filter test and the claim's are word-for-word the same. -/
theorem specFilterHit_eq_filterMatches : specFilterHit = filterMatches := rfl

/-- For an already-lowercased, non-empty term, the engine's search
predicate coincides with the claim's case-insensitive one. -/
theorem searchMatches_eq_spec (term : String) (hne : term ≠ "")
    (hlow : strLower term = term) (it : JSItem) :
    searchMatches term it = specSearchHit term it := by
  rw [searchMatches, specSearchHit]
  have hid : ciContains it.id term = strContains (strLower it.id) term := by
    rw [ciContains, hlow]
  have hnotes : ciContains it.notes term = strContains (strLower it.notes) term := by
    rw [ciContains, hlow]
  have hattrs : (it.attribute_values.any fun kv =>
      (kv.2 != "" && strContains (strLower kv.2) term) || strContains (strLower kv.1) term) =
      (it.attribute_values.any fun kv => ciContains kv.2 term || ciContains kv.1 term) := by
    apply any_congr
    intro kv
    rw [truthyGuard_eq term kv.2 hne, ciContains, ciContains, hlow]
  rw [hid, hnotes, hattrs, truthyGuard_eq term it.notes hne]

/-- The engine's two filtering passes fuse into one conjunction pass. -/
theorem filter_then_filter {α : Type} (p q : α → Bool) (l : List α) :
    (l.filter p).filter q = l.filter (fun a => p a && q a) := by
  induction l with
  | nil => rfl
  | cons a t ih =>
      by_cases hp : p a <;> by_cases hq : q a <;>
        simp [List.filter_cons, hp, hq, ih]

/-- C8 counterexample.  `applyFiltersAndSearch` uses the search term
exactly as stored, and only lowercases the ITEM fields: with the search
term `"A"` and an item whose id is `"A"` the engine returns nothing,
although `"A"` case-insensitively contains `"A"` and the claim requires
the item to be returned.  (In the page the global term is lowercased at
the input box before the engine runs, so the engine alone is not
case-insensitive in its term argument.) -/
theorem c8_search_not_case_insensitive_counterexample :
    applyFiltersAndSearch [⟨"A", [], ""⟩] "A" [] = [] ∧
    specSearchHit "A" ⟨"A", [], ""⟩ = true ∧
    specVisible "A" [] ⟨"A", [], ""⟩ = true := by
  refine ⟨?_, by decide, by decide⟩
  decide

/-- C8 amended: for a search term that is already lower-cased (which the
page guarantees: the input box value is lowercased and trimmed before it
reaches the engine), the engine returns exactly the items that pass the
claim's search clause (case-insensitive substring of id, some attribute
value or name, or notes; vacuous for an empty term) and satisfy every
active filter (lower-cased comparison under the named operator, AND
composition), preserving the original order; and with no search term and
no filters the item sequence is returned unchanged. -/
theorem c8_engine_matches_spec (items : List JSItem) (term : String)
    (filters : List ActiveFilter) (hlow : strLower term = term) :
    applyFiltersAndSearch items term filters =
      items.filter (specVisible term filters) ∧
    applyFiltersAndSearch items "" [] = items := by
  constructor
  · by_cases hne : term = ""
    · subst hne
      rw [applyFiltersAndSearch]
      cases filters with
      | nil =>
          have hv : specVisible "" [] = fun _ => true := by
            funext it
            simp [specVisible]
          rw [hv]
          simp
      | cons f fs =>
          simp only [bne_self_eq_false, Bool.false_eq_true, if_false,
            List.length_cons, gt_iff_lt, Nat.succ_pos, if_true]
          apply List.filter_congr
          intro it _
          simp [specVisible, specFilterHit_eq_filterMatches]
    · rw [applyFiltersAndSearch]
      have hbne : (term != "") = true := by simp [hne]
      cases filters with
      | nil =>
          simp only [hbne, if_true, List.length_nil, gt_iff_lt, lt_irrefl, if_false]
          apply List.filter_congr
          intro it _
          rw [searchMatches_eq_spec term hne hlow it, specVisible]
          simp [hne]
      | cons f fs =>
          simp only [hbne, if_true, List.length_cons, gt_iff_lt, Nat.succ_pos]
          rw [filter_then_filter]
          apply List.filter_congr
          intro it _
          rw [searchMatches_eq_spec term hne hlow it, specVisible,
            specFilterHit_eq_filterMatches, beq_eq_false_iff_ne.mpr hne, Bool.false_or]
  · rw [applyFiltersAndSearch]
    simp

/-- C8 witness: the spec's own worked example — items `a` (notes `cat`)
and `b` (notes `dog`); searching `"cat"` yields exactly item `a`. -/
theorem c8_engine_matches_spec_witness :
    strLower "cat" = "cat" ∧
    applyFiltersAndSearch
        [⟨"a", [], "cat"⟩, ⟨"b", [], "dog"⟩] "cat" [] =
      List.filter (specVisible "cat" [])
        [⟨"a", [], "cat"⟩, ⟨"b", [], "dog"⟩] ∧
    applyFiltersAndSearch [⟨"a", [], "cat"⟩, ⟨"b", [], "dog"⟩] "cat" [] =
      [⟨"a", [], "cat"⟩] :=
  ⟨by decide,
    (c8_engine_matches_spec [⟨"a", [], "cat"⟩, ⟨"b", [], "dog"⟩] "cat" [] (by decide)).1,
    by decide⟩

end DSB
